import Mathlib

/-!
Shallow embedding of the savings-aggregator server (Express + moment-timezone,
`src/unnamed/part_000`).

Modelling conventions:
* Instants are seconds since the Unix epoch (`Int`); calendar conversion uses
  the standard civil-date algorithms over `Int.ediv` (floor division).
* An IANA timezone database is an abstract `String → Option Int` mapping a
  zone name to its fixed UTC offset in minutes (`none` = unknown zone).
  DST transitions are outside the model; every concrete zone used here
  (Asia/Kolkata +05:30, UTC) has a fixed offset.
* JS numbers are `JsNum`: `nan`, the two infinities, or an exact rational.
* `moment(s, moment.ISO_8601, true)` is modelled by `parseISO` (the ISO-8601
  subset YYYY-MM-DD[THH:MM[:SS[.frac]]][Z|±HH[:MM]] with range validation);
  the lenient `moment(s)` by `parseLenient` (ISO, else YYYY/MM/DD, the
  non-ISO shape exercised by the data); `moment.utc(s)` uses the same
  grammar with UTC as the default offset.
* `parseInt` / `parseFloat` are modelled on decimal inputs (optional sign,
  longest numeric prefix, `Infinity` literal; exponents not modelled).
* A JS value `undefined`/missing is `Option.none`; `NaN` integer ids are
  `none` (so `===` on ids, which is false for `NaN`, is `idEq`).
* The `lastMonthData` filter in the source declares `const itemDate` and then
  reassigns it when the strict ISO parse fails; in JS this throws a
  `TypeError` that escapes the handler (Express answers 500).  This is
  modelled by `Except Unit Bool` and the `Response.serverError` case.
-/

set_option maxRecDepth 2000

/-- JS number: NaN, ±Infinity, or an exact rational (doubles are modelled
exactly; every literal in scope is small). -/
inductive JsNum where
  | nan : JsNum
  | inf : JsNum
  | negInf : JsNum
  | num : ℚ → JsNum
deriving DecidableEq, Repr

/-- JS `+` on numbers. -/
def jsAdd : JsNum → JsNum → JsNum
  | JsNum.nan, _ => JsNum.nan
  | _, JsNum.nan => JsNum.nan
  | JsNum.inf, JsNum.negInf => JsNum.nan
  | JsNum.negInf, JsNum.inf => JsNum.nan
  | JsNum.inf, _ => JsNum.inf
  | _, JsNum.inf => JsNum.inf
  | JsNum.negInf, _ => JsNum.negInf
  | _, JsNum.negInf => JsNum.negInf
  | JsNum.num a, JsNum.num b => JsNum.num (a + b)

/-- JS `x / 1000` on numbers. -/
def jsDiv1000 : JsNum → JsNum
  | JsNum.nan => JsNum.nan
  | JsNum.inf => JsNum.inf
  | JsNum.negInf => JsNum.negInf
  | JsNum.num a => JsNum.num (a / 1000)

/-- JS falsiness of a number (`NaN` and `0`). -/
def jsFalsy : JsNum → Bool
  | JsNum.nan => true
  | JsNum.num a => a = 0
  | _ => false

/-- JS `(x || 0)` on numbers. -/
def jsOrZero (x : JsNum) : JsNum := if jsFalsy x then JsNum.num 0 else x

/-- `reduce((sum, v) => sum + v, 0)`. -/
def jsSum (l : List JsNum) : JsNum := l.foldl jsAdd (JsNum.num 0)

/-- The property the spec asserts of stored savings values: a finite
nonnegative number. -/
def JsNum.nonnegFinite (x : JsNum) : Prop := ∃ q : ℚ, x = JsNum.num q ∧ 0 ≤ q

instance (x : JsNum) : Decidable x.nonnegFinite := by
  unfold JsNum.nonnegFinite
  cases x with
  | nan => exact Decidable.isFalse (by rintro ⟨q, h, _⟩; cases h)
  | inf => exact Decidable.isFalse (by rintro ⟨q, h, _⟩; cases h)
  | negInf => exact Decidable.isFalse (by rintro ⟨q, h, _⟩; cases h)
  | num a =>
      exact if h : 0 ≤ a then Decidable.isTrue ⟨a, rfl, h⟩ else
        Decidable.isFalse (by rintro ⟨q, hq, h0⟩; cases hq; exact h h0)

/-! ### Civil calendar arithmetic (days since 1970-01-01) -/

/-- Days since the epoch of the civil date `y-m-d` (proleptic Gregorian). -/
def daysFromCivil (y m d : Int) : Int :=
  let y' : Int := if m ≤ 2 then y - 1 else y
  let era : Int := y'.ediv 400
  let yoe : Int := y' - era * 400
  let mp : Int := if m ≤ 2 then m + 9 else m - 3
  let doy : Int := (153 * mp + 2).ediv 5 + d - 1
  let doe : Int := yoe * 365 + yoe.ediv 4 - yoe.ediv 100 + doy
  era * 146097 + doe - 719468

/-- Civil date `(y, m, d)` of a day count since the epoch. -/
def civilFromDays (z0 : Int) : Int × Int × Int :=
  let z : Int := z0 + 719468
  let era : Int := z.ediv 146097
  let doe : Int := z - era * 146097
  let yoe : Int := (doe - doe.ediv 1460 + doe.ediv 36524 - doe.ediv 146096).ediv 365
  let y : Int := yoe + era * 400
  let doy : Int := doe - (365 * yoe + yoe.ediv 4 - yoe.ediv 100)
  let mp : Int := (5 * doy + 2).ediv 153
  let d : Int := doy - (153 * mp + 2).ediv 5 + 1
  let m : Int := if mp < 10 then mp + 3 else mp - 9
  (if m ≤ 2 then y + 1 else y, m, d)

def isLeapYear (y : Int) : Bool := (y.emod 4 = 0 ∧ y.emod 100 ≠ 0) ∨ y.emod 400 = 0

def daysInMonth (y : Int) (m : Nat) : Nat :=
  if m = 2 then (if isLeapYear y then 29 else 28)
  else if m = 4 ∨ m = 6 ∨ m = 9 ∨ m = 11 then 30
  else 31

def pad2 (n : Int) : String := (if n < 10 then "0" else "") ++ toString n

/-- `format("YYYY-MM")` of an instant displayed at a fixed offset (minutes). -/
def yyyyMM (offMin : Int) (t : Int) : String :=
  let days := (t + 60 * offMin).ediv 86400
  let c := civilFromDays days
  toString c.1 ++ "-" ++ pad2 c.2.1

/-- `startOf("month")` of an instant displayed at a fixed offset (minutes),
as an instant. -/
def startOfMonthInstant (offMin : Int) (t : Int) : Int :=
  let days := (t + 60 * offMin).ediv 86400
  let c := civilFromDays days
  86400 * daysFromCivil c.1 c.2.1 1 - 60 * offMin

/-! ### Timestamp parsing -/

/-- Wall-clock components of a parsed date-time string, with the string's own
UTC offset (minutes) when it carried one. -/
structure DateTimeParts where
  year : Int
  month : Nat
  day : Nat
  hour : Nat
  minute : Nat
  second : Nat
  offset : Option Int
deriving DecidableEq, Repr

def digitVal (c : Char) : Option Nat :=
  if c.isDigit then some (c.toNat - 48) else none

/-- Read exactly `n` decimal digits. -/
def readNDigits : Nat → List Char → Option (Nat × List Char)
  | 0, cs => some (0, cs)
  | _ + 1, [] => none
  | n + 1, c :: cs =>
    match digitVal c, readNDigits n cs with
    | some d, some (v, rest) => some (d * 10 ^ n + v, rest)
    | _, _ => none

def expectChar (c : Char) : List Char → Option (List Char)
  | x :: xs => if x = c then some xs else none
  | [] => none

/-- Validated constructor for date-time components. -/
def mkDT (y : Int) (mo d h mi se : Nat) (off : Option Int) : Option DateTimeParts :=
  if 1 ≤ mo ∧ mo ≤ 12 ∧ 1 ≤ d ∧ d ≤ daysInMonth y mo ∧ h ≤ 23 ∧ mi ≤ 59 ∧ se ≤ 59 then
    some ⟨y, mo, d, h, mi, se, off⟩
  else none

/-- Drop a fractional-seconds part `.ddd`. -/
def skipFraction (cs : List Char) : List Char :=
  match cs with
  | '.' :: rest => if rest.takeWhile Char.isDigit = [] then cs else rest.dropWhile Char.isDigit
  | _ => cs

/-- Trailing UTC-offset designator: empty, `Z`, `±HH`, `±HHMM` or `±HH:MM`. -/
def parseOffsetTail (cs : List Char) : Option (Option Int) :=
  match cs with
  | [] => some none
  | ['Z'] => some (some 0)
  | c :: rest =>
    if c = '+' ∨ c = '-' then
      let sign : Int := if c = '+' then 1 else -1
      match readNDigits 2 rest with
      | none => none
      | some (oh, rest2) =>
        match rest2 with
        | [] => some (some (sign * (oh * 60 : Nat)))
        | ':' :: rest3 =>
          match readNDigits 2 rest3 with
          | some (om, []) => some (some (sign * ((oh * 60 + om : Nat) : Int)))
          | _ => none
        | _ =>
          match readNDigits 2 rest2 with
          | some (om, []) => some (some (sign * ((oh * 60 + om : Nat) : Int)))
          | _ => none
    else none

/-- `HH:MM[:SS[.frac]]` then an offset tail. -/
def parseTimeTail (cs : List Char) : Option (Nat × Nat × Nat × Option Int) :=
  (readNDigits 2 cs).bind fun hcs =>
  (expectChar ':' hcs.2).bind fun cs2 =>
  (readNDigits 2 cs2).bind fun mcs =>
  match mcs.2 with
  | ':' :: cs3 =>
    (readNDigits 2 cs3).bind fun scs =>
    (parseOffsetTail (skipFraction scs.2)).bind fun off =>
    some (hcs.1, mcs.1, scs.1, off)
  | rest =>
    (parseOffsetTail rest).bind fun off =>
    some (hcs.1, mcs.1, 0, off)

/-- Strict ISO-8601 parse: models `moment(s, moment.ISO_8601, true)`. -/
def parseISO (s : String) : Option DateTimeParts :=
  (readNDigits 4 s.toList).bind fun ycs =>
  (expectChar '-' ycs.2).bind fun cs =>
  (readNDigits 2 cs).bind fun mocs =>
  (expectChar '-' mocs.2).bind fun cs2 =>
  (readNDigits 2 cs2).bind fun dcs =>
  match dcs.2 with
  | [] => mkDT ycs.1 mocs.1 dcs.1 0 0 0 none
  | 'T' :: cs3 =>
    (parseTimeTail cs3).bind fun t =>
    mkDT ycs.1 mocs.1 dcs.1 t.1 t.2.1 t.2.2.1 t.2.2.2
  | _ => none

/-- `YYYY/MM/DD`: the non-ISO date shape the lenient parser accepts in the
data set. -/
def parseSlashDate (s : String) : Option DateTimeParts :=
  (readNDigits 4 s.toList).bind fun ycs =>
  (expectChar '/' ycs.2).bind fun cs =>
  (readNDigits 2 cs).bind fun mocs =>
  (expectChar '/' mocs.2).bind fun cs2 =>
  (readNDigits 2 cs2).bind fun dcs =>
  if dcs.2 = [] then mkDT ycs.1 mocs.1 dcs.1 0 0 0 none else none

/-- Lenient parse: models `moment(s)` (and the grammar of `moment.utc(s)`). -/
def parseLenient (s : String) : Option DateTimeParts :=
  (parseISO s).orElse fun _ => parseSlashDate s

/-- Seconds since the epoch of the wall-clock components, before applying an
offset. -/
def civilSecs (p : DateTimeParts) : Int :=
  86400 * daysFromCivil p.year (p.month : Int) (p.day : Int)
    + 3600 * (p.hour : Int) + 60 * (p.minute : Int) + (p.second : Int)

/-- The instant of parsed components: the string's own offset when present,
else the given default offset (minutes). -/
def instantOf (defOff : Int) (p : DateTimeParts) : Int :=
  civilSecs p - 60 * (p.offset.getD defOff)

/-! ### JS primitives used by the server -/

def natOfDigits (ds : List Char) : Nat :=
  ds.foldl (fun a c => a * 10 + (c.toNat - 48)) 0

/-- JS `parseInt` on decimal input: `none` models `NaN`. -/
def jsParseInt (s : String) : Option Int :=
  let cs := s.toList.dropWhile Char.isWhitespace
  let signAndRest : Int × List Char :=
    match cs with
    | '-' :: rest => (-1, rest)
    | '+' :: rest => (1, rest)
    | _ => (1, cs)
  let ds := signAndRest.2.takeWhile Char.isDigit
  if ds = [] then none else some (signAndRest.1 * (natOfDigits ds : Int))

/-- JS `parseFloat` on decimal input (longest numeric prefix, `Infinity`
literal; exponents not modelled). -/
def jsParseFloat (s : String) : JsNum :=
  let cs := s.toList.dropWhile Char.isWhitespace
  let signAndRest : Int × List Char :=
    match cs with
    | '-' :: rest => (-1, rest)
    | '+' :: rest => (1, rest)
    | _ => (1, cs)
  let body := signAndRest.2
  if body.take 8 = "Infinity".toList then
    (if signAndRest.1 = 1 then JsNum.inf else JsNum.negInf)
  else
    let ds1 := body.takeWhile Char.isDigit
    let rest := body.drop ds1.length
    let ds2 :=
      match rest with
      | '.' :: r => r.takeWhile Char.isDigit
      | _ => []
    if ds1 = [] ∧ ds2 = [] then JsNum.nan
    else
      JsNum.num ((signAndRest.1 : ℚ) *
        ((natOfDigits ds1 : ℚ) + (natOfDigits ds2 : ℚ) / (10 : ℚ) ^ ds2.length))

/-- The CSV field transform `value.trim().replace(/^"|"$/g, "")`. -/
def trimQ (s : String) : String :=
  let cs := s.trim.toList
  let cs2 := if cs.head? = some '"' then cs.tail else cs
  let cs3 := if cs2.getLast? = some '"' then cs2.dropLast else cs2
  String.mk cs3

/-- `parseFloat(value) || 0`: the savings-value transform. -/
def parseFloatOr0 (v : String) : JsNum :=
  if jsFalsy (jsParseFloat v) then JsNum.num 0 else jsParseFloat v

/-! ### Data model and load transforms -/

structure Device where
  id : Option Int
  name : String
  timezone : String
deriving DecidableEq, Repr

structure SavingsRecord where
  device_id : Option Int
  device_timestamp : String
  carbon_saved : JsNum
  fueld_saved : JsNum
deriving DecidableEq, Repr

/-- `moment.tz.zone(tz) ? tz : "Asia/Kolkata"`: the timezone resolver. -/
def resolveTimezone (db : String → Option Int) (tz : String) : String :=
  if (db tz).isSome then tz else "Asia/Kolkata"

/-- The device-row mapping in `loadData`. -/
def deviceOfRow (db : String → Option Int) (idS nameS tzS : String) : Device :=
  { id := jsParseInt (trimQ idS)
    name := trimQ nameS
    timezone := resolveTimezone db (trimQ tzS) }

/-- The savings-row transform in `loadData`. -/
def savingsRecordOfRow (idS tsS cS fS : String) : SavingsRecord :=
  { device_id := jsParseInt (trimQ idS)
    device_timestamp := trimQ tsS
    carbon_saved := parseFloatOr0 (trimQ cS)
    fueld_saved := parseFloatOr0 (trimQ fS) }

/-- A concrete fixed-offset zone table for evaluation (offsets in minutes). -/
def tzdb : String → Option Int
  | "Asia/Kolkata" => some 330
  | "UTC" => some 0
  | _ => none

/-! ### The /api/savings handler -/

/-- JS `===` between numbers that may be NaN (`none`): NaN equals nothing. -/
def idEq : Option Int → Option Int → Bool
  | some a, some b => a == b
  | _, _ => false

/-- A returned record: the savings record spread together with the added
`timestamp` field. -/
structure AnnotatedRecord where
  record : SavingsRecord
  timestamp : String
deriving DecidableEq, Repr

def annotate (item : SavingsRecord) : AnnotatedRecord :=
  ⟨item, item.device_timestamp⟩

structure Totals where
  totalCarbon : JsNum
  totalFuel : JsNum
  monthlyCarbon : JsNum
  monthlyFuel : JsNum
  lastMonth : String
deriving DecidableEq, Repr

inductive Response where
  | badRequest : String → Response
  | notFound : String → Response
  | ok : List AnnotatedRecord → Totals → Response
  | serverError : Response
deriving DecidableEq, Repr

/-- `moment.tz(s, tz)`: parse `s` leniently; a string without its own offset
is read at the zone's offset. -/
def momentTz (db : String → Option Int) (tz : String) (s : String) : Option Int :=
  (parseLenient s).map fun p => instantOf ((db tz).getD 0) p

/-- The three-stage normalization in the `filteredData` filter: strict ISO,
then lenient `moment(s)` (server-local default offset), then `moment.utc(s)`
(same grammar, UTC default). -/
def normalizeTs (serverOff : Int) (s : String) : Option Int :=
  match parseISO s with
  | some p => some (instantOf serverOff p)
  | none =>
    match parseLenient s with
    | some p => some (instantOf serverOff p)
    | none =>
      match parseLenient s with
      | some p => some (instantOf 0 p)
      | none => none

/-- The `filteredData` filter predicate: device match, then inclusive
`isBetween(start, end, null, "[]")` on the normalized timestamp (an invalid
moment is never between). -/
def recordInRange (serverOff : Int) (dIdP : Option Int) (startI endI : Int)
    (item : SavingsRecord) : Bool :=
  if ¬ idEq item.device_id dIdP then false
  else
    match normalizeTs serverOff item.device_timestamp with
    | some t => decide (startI ≤ t) && decide (t ≤ endI)
    | none => false

/-- The `lastMonthData` filter body.  `const itemDate` is reassigned when the
strict ISO parse fails: a thrown `TypeError`, modelled as `.error ()`.
Otherwise the test is: month string (server-local display, after the
mutating `startOf("month")`) equals `lastMonthStr`, and the mutated
start-of-month instant `isSameOrBefore(end)`. -/
def lastMonthTest (serverOff : Int) (lastMonthStr : String) (endI : Int)
    (item : AnnotatedRecord) : Except Unit Bool :=
  match parseISO item.record.device_timestamp with
  | none => Except.error ()
  | some p =>
    let t := instantOf serverOff p
    Except.ok (yyyyMM serverOff t == lastMonthStr
      && decide (startOfMonthInstant serverOff t ≤ endI))

/-- `Array.filter` with a callback that may throw: stops at the first throw. -/
def filterE {ε α : Type} (f : α → Except ε Bool) : List α → Except ε (List α)
  | [] => Except.ok []
  | x :: xs =>
    match f x with
    | Except.error e => Except.error e
    | Except.ok b =>
      match filterE f xs with
      | Except.error e => Except.error e
      | Except.ok rest => Except.ok (if b then x :: rest else rest)

/-- The handler body from the range filter on: filtering, totals, the
monthly rollup and the JSON response (or the escaped `TypeError`). -/
def computeResult (db : String → Option Int) (serverOff : Int)
    (savingsData : List SavingsRecord) (dIdP : Option Int) (tz : String)
    (startI endI : Int) : Response :=
  let filteredData := (savingsData.filter (recordInRange serverOff dIdP startI endI)).map annotate
  let lastMonthStr := yyyyMM ((db tz).getD 0) endI
  match filterE (lastMonthTest serverOff lastMonthStr endI) filteredData with
  | Except.error _ => Response.serverError
  | Except.ok lastMonthData =>
    Response.ok filteredData
      { totalCarbon := jsDiv1000 (jsSum (filteredData.map fun i => jsOrZero i.record.carbon_saved))
        totalFuel := jsSum (filteredData.map fun i => jsOrZero i.record.fueld_saved)
        monthlyCarbon :=
          if 0 < lastMonthData.length then
            jsDiv1000 (jsSum (lastMonthData.map fun i => jsOrZero i.record.carbon_saved))
          else JsNum.num 0
        monthlyFuel :=
          if 0 < lastMonthData.length then
            jsSum (lastMonthData.map fun i => jsOrZero i.record.fueld_saved)
          else JsNum.num 0
        lastMonth := lastMonthStr }

/-- JS falsiness of an optional query-string parameter (`undefined` or `""`). -/
def paramFalsy : Option String → Bool
  | none => true
  | some s => s = ""

/-- `devices.find((d) => d.id === parseInt(deviceId))`. -/
def findDevice (devices : List Device) (q : String) : Option Device :=
  devices.find? fun d => idEq d.id (jsParseInt q)

/-- The GET /api/savings handler. -/
def getSavings (db : String → Option Int) (serverOff : Int) (devices : List Device)
    (savingsData : List SavingsRecord)
    (deviceId startDateTime endDateTime : Option String) : Response :=
  if paramFalsy deviceId || paramFalsy startDateTime || paramFalsy endDateTime then
    Response.badRequest "deviceId, startDateTime, and endDateTime are required"
  else
    match findDevice devices (deviceId.getD "") with
    | none => Response.notFound "Device not found"
    | some device =>
      match momentTz db device.timezone (startDateTime.getD ""),
            momentTz db device.timezone (endDateTime.getD "") with
      | some s, some e =>
        computeResult db serverOff savingsData (jsParseInt (deviceId.getD ""))
          device.timezone s e
      | _, _ => Response.badRequest "Invalid startDateTime or endDateTime format"

/-! ### Helper lemmas -/

theorem jsOrZero_eq_self {x : JsNum} (h : x ≠ JsNum.nan) : jsOrZero x = x := by
  cases x with
  | nan => exact absurd rfl h
  | inf => rfl
  | negInf => rfl
  | num q =>
    by_cases hq : q = 0
    · subst hq; rfl
    · simp [jsOrZero, jsFalsy, hq]

/-- The result of a possibly-throwing filter callback, `false` on a throw. -/
def exceptPass {ε : Type} (x : Except ε Bool) : Bool :=
  match x with
  | Except.ok b => b
  | Except.error _ => false

theorem filterE_ok_filter {ε α : Type} (f : α → Except ε Bool) :
    ∀ (l l' : List α), filterE f l = Except.ok l' →
      (∀ a ∈ l, ∃ b, f a = Except.ok b) ∧ l' = l.filter fun a => exceptPass (f a)
  | [], l', h => by
    unfold filterE at h
    injection h with h
    subst h
    exact ⟨by simp, rfl⟩
  | x :: xs, l', h => by
    unfold filterE at h
    cases hfx : f x with
    | error e => rw [hfx] at h; exact Except.noConfusion h
    | ok b =>
      rw [hfx] at h
      cases hrec : filterE f xs with
      | error e => rw [hrec] at h; exact Except.noConfusion h
      | ok rest =>
        rw [hrec] at h
        injection h with h
        obtain ⟨hall, hrest⟩ := filterE_ok_filter f xs rest hrec
        constructor
        · intro a ha
          rcases List.mem_cons.mp ha with ha | ha
          · exact ⟨b, ha ▸ hfx⟩
          · exact hall a ha
        · subst h
          simp only [List.filter_cons, exceptPass, hfx, hrest]

theorem computeResult_ok {db : String → Option Int} {serverOff : Int}
    {savingsData : List SavingsRecord} {dIdP : Option Int} {tz : String}
    {startI endI : Int} {r : List AnnotatedRecord} {ts : Totals}
    (h : computeResult db serverOff savingsData dIdP tz startI endI = Response.ok r ts) :
    r = (savingsData.filter (recordInRange serverOff dIdP startI endI)).map annotate ∧
    ∃ lmd : List AnnotatedRecord,
      filterE (lastMonthTest serverOff (yyyyMM ((db tz).getD 0) endI) endI) r = Except.ok lmd ∧
      ts = { totalCarbon := jsDiv1000 (jsSum (r.map fun i => jsOrZero i.record.carbon_saved))
             totalFuel := jsSum (r.map fun i => jsOrZero i.record.fueld_saved)
             monthlyCarbon :=
               if 0 < lmd.length then
                 jsDiv1000 (jsSum (lmd.map fun i => jsOrZero i.record.carbon_saved))
               else JsNum.num 0
             monthlyFuel :=
               if 0 < lmd.length then
                 jsSum (lmd.map fun i => jsOrZero i.record.fueld_saved)
               else JsNum.num 0
             lastMonth := yyyyMM ((db tz).getD 0) endI } := by
  simp only [computeResult] at h
  cases hf : filterE (lastMonthTest serverOff (yyyyMM ((db tz).getD 0) endI) endI)
      ((savingsData.filter (recordInRange serverOff dIdP startI endI)).map annotate) with
  | error e => rw [hf] at h; exact Response.noConfusion h
  | ok lmd =>
    rw [hf] at h
    rw [Response.ok.injEq] at h
    obtain ⟨h1, h2⟩ := h
    subst h1
    exact ⟨rfl, lmd, hf, h2.symm⟩

/-! ### Claim theorems -/

/-- C1: the claim says a per-record timestamp-parse failure never aborts the
query, including during the monthly-rollup subset selection.  The code
violates this: the `lastMonthData` filter declares `const itemDate` and
reassigns it when the strict ISO parse fails, throwing a `TypeError` that
aborts the whole query.  At this concrete valid query, a record with the
lenient-parseable but non-strict-ISO timestamp `2023/06/15` passes the range
filter and then crashes the monthly-rollup selection. -/
theorem c1_monthly_rollup_crash :
    getSavings tzdb 0 [⟨some 1, "A", "Asia/Kolkata"⟩]
      [⟨some 1, "2023/06/15", JsNum.num 500, JsNum.num 10⟩]
      (some "1") (some "2023-06-01T00:00") (some "2023-06-30T23:59") =
      Response.serverError := by
  decide

/-- C8: whenever any of deviceId, startDateTime, endDateTime is missing, the
response is 400 with the exact documented error body, for every device list,
data set and remaining parameter values — so the check precedes device lookup
and range validation. -/
theorem c8_missing_params (db : String → Option Int) (serverOff : Int)
    (devices : List Device) (savingsData : List SavingsRecord)
    (deviceId startDateTime endDateTime : Option String)
    (h : deviceId = none ∨ startDateTime = none ∨ endDateTime = none) :
    getSavings db serverOff devices savingsData deviceId startDateTime endDateTime =
      Response.badRequest "deviceId, startDateTime, and endDateTime are required" := by
  unfold getSavings
  rcases h with h | h | h <;> subst h <;> simp [paramFalsy]

theorem c8_missing_params_witness :
    getSavings tzdb 0 [⟨some 1, "A", "Asia/Kolkata"⟩] [] none
      (some "2023-06-01T00:00") (some "2023-06-30T23:59") =
      Response.badRequest "deviceId, startDateTime, and endDateTime are required" :=
  c8_missing_params tzdb 0 [⟨some 1, "A", "Asia/Kolkata"⟩] [] none
    (some "2023-06-01T00:00") (some "2023-06-30T23:59") (Or.inl rfl)

/-- C7: the timezone resolver returns a known zone name unchanged and the
fixed default `Asia/Kolkata` otherwise; it is total, every loaded device's
timezone goes through it, and (whenever the zone table knows the default)
the result is always a resolvable zone identifier. -/
theorem c7_timezone_resolver :
    (∀ db : String → Option Int, ∀ tz : String,
       (db tz).isSome = true → resolveTimezone db tz = tz) ∧
    (∀ db : String → Option Int, ∀ tz : String,
       db tz = none → resolveTimezone db tz = "Asia/Kolkata") ∧
    (∀ db : String → Option Int, ∀ tz : String,
       db "Asia/Kolkata" ≠ none →
       (db (resolveTimezone db tz)).isSome = true) ∧
    (∀ db : String → Option Int, ∀ idS nameS tzS : String,
       (deviceOfRow db idS nameS tzS).timezone = resolveTimezone db (trimQ tzS)) ∧
    resolveTimezone tzdb "Mars/Phobos" = "Asia/Kolkata" := by
  refine ⟨?_, ?_, ?_, ?_, rfl⟩
  · intro db tz h
    simp [resolveTimezone, h]
  · intro db tz h
    simp [resolveTimezone, h]
  · intro db tz h
    unfold resolveTimezone
    by_cases hk : (db tz).isSome
    · simp [hk]
    · rw [if_neg hk]
      cases hdb : db "Asia/Kolkata" with
      | none => exact absurd hdb h
      | some o => rfl
  · intro db idS nameS tzS
    rfl

theorem c7_timezone_resolver_witness :
    resolveTimezone tzdb "UTC" = "UTC" ∧
    resolveTimezone tzdb "Mars/Phobos" = "Asia/Kolkata" ∧
    (tzdb (resolveTimezone tzdb "Mars/Phobos")).isSome = true ∧
    (deviceOfRow tzdb "1" "A" "Mars/Phobos").timezone = resolveTimezone tzdb (trimQ "Mars/Phobos") :=
  ⟨c7_timezone_resolver.1 tzdb "UTC" rfl,
   c7_timezone_resolver.2.1 tzdb "Mars/Phobos" rfl,
   c7_timezone_resolver.2.2.1 tzdb "Mars/Phobos" (by decide),
   c7_timezone_resolver.2.2.2.1 tzdb "1" "A" "Mars/Phobos"⟩

/-- C9: device lookup compares the stored integer id with `parseInt` of the
deviceId query string: `"1abc"` parses to 1 and matches device 1; a deviceId
with no leading digits parses to NaN and can never match any device, and a
device row whose id is NaN never matches any parsed deviceId; with the other
parameters present this yields the 404 response. -/
theorem c9_device_lookup :
    jsParseInt "1abc" = some 1 ∧
    jsParseInt "abc" = none ∧
    (∀ tail : List Device, ∀ nameS tzS : String,
       findDevice (⟨some 1, nameS, tzS⟩ :: tail) "1abc" = some ⟨some 1, nameS, tzS⟩) ∧
    (∀ devices : List Device, ∀ q : String,
       jsParseInt q = none → findDevice devices q = none) ∧
    (∀ d : Device, d.id = none → ∀ p : Option Int, idEq d.id p = false) ∧
    (∀ db : String → Option Int, ∀ nameS tzS : String,
       (deviceOfRow db "abc" nameS tzS).id = none) ∧
    (∀ db : String → Option Int, ∀ serverOff : Int, ∀ devices : List Device,
       ∀ savingsData : List SavingsRecord, ∀ q sS eS : String,
       q ≠ "" → sS ≠ "" → eS ≠ "" → jsParseInt q = none →
       getSavings db serverOff devices savingsData (some q) (some sS) (some eS) =
         Response.notFound "Device not found") := by
  have hnone : ∀ devices : List Device, ∀ q : String,
      jsParseInt q = none → findDevice devices q = none := by
    intro devices q h
    unfold findDevice
    rw [List.find?_eq_none]
    intro d _
    rw [h]
    cases d.id <;> simp [idEq]
  refine ⟨rfl, rfl, ?_, hnone, ?_, ?_, ?_⟩
  · intro tail nameS tzS
    rfl
  · intro d h p
    rw [h]
    cases p <;> rfl
  · intro db nameS tzS
    with_unfolding_all rfl
  · intro db serverOff devices savingsData q sS eS hq hs he hp
    unfold getSavings
    rw [if_neg]
    · simp only [Option.getD_some]
      rw [hnone devices q hp]
    · simp [paramFalsy, hq, hs, he]

theorem c9_device_lookup_witness :
    findDevice [⟨some 1, "A", "Asia/Kolkata"⟩] "1abc" = some ⟨some 1, "A", "Asia/Kolkata"⟩ ∧
    findDevice [⟨some 1, "A", "Asia/Kolkata"⟩, ⟨none, "B", "UTC"⟩] "abc" = none ∧
    idEq (Device.mk none "B" "UTC").id (some 1) = false ∧
    getSavings tzdb 0 [⟨some 1, "A", "Asia/Kolkata"⟩] [] (some "abc")
      (some "2023-06-01T00:00") (some "2023-06-30T23:59") =
      Response.notFound "Device not found" :=
  ⟨c9_device_lookup.2.2.1 [] "A" "Asia/Kolkata",
   c9_device_lookup.2.2.2.1 [⟨some 1, "A", "Asia/Kolkata"⟩, ⟨none, "B", "UTC"⟩] "abc" rfl,
   c9_device_lookup.2.2.2.2.1 (Device.mk none "B" "UTC") rfl (some 1),
   c9_device_lookup.2.2.2.2.2.2 tzdb 0 [⟨some 1, "A", "Asia/Kolkata"⟩] [] "abc"
     "2023-06-01T00:00" "2023-06-30T23:59" (by decide) (by decide) (by decide) rfl⟩

/-- C6 counterexample: the claim says stored carbon/fuel values are always
finite and ≥ 0.  The transform is `parseFloat(value) || 0`, so the parseable
input `"-5"` is stored as -5 (negative) and `"Infinity"` is stored as
+Infinity (not finite). -/
theorem c6_counterexample :
    (savingsRecordOfRow "1" "2023-01-01" "-5" "Infinity").carbon_saved = JsNum.num (-5) ∧
    (savingsRecordOfRow "1" "2023-01-01" "-5" "Infinity").fueld_saved = JsNum.inf ∧
    ¬ JsNum.nonnegFinite (savingsRecordOfRow "1" "2023-01-01" "-5" "Infinity").carbon_saved ∧
    ¬ JsNum.nonnegFinite (savingsRecordOfRow "1" "2023-01-01" "-5" "Infinity").fueld_saved := by
  with_unfolding_all decide

/-- C6 amended: after load, carbon_saved and fueld_saved are numbers that are
never NaN, and any unparseable input value coerces to 0; but parseable
negative values are stored negative and `Infinity` is stored infinite, so
"finite and ≥ 0" does not hold. -/
theorem c6_amended_load_invariant :
    (∀ v : String, parseFloatOr0 v ≠ JsNum.nan) ∧
    (∀ v : String, jsParseFloat v = JsNum.nan → parseFloatOr0 v = JsNum.num 0) ∧
    (∀ idS tsS cS fS : String,
       (savingsRecordOfRow idS tsS cS fS).carbon_saved = parseFloatOr0 (trimQ cS) ∧
       (savingsRecordOfRow idS tsS cS fS).fueld_saved = parseFloatOr0 (trimQ fS) ∧
       (savingsRecordOfRow idS tsS cS fS).carbon_saved ≠ JsNum.nan ∧
       (savingsRecordOfRow idS tsS cS fS).fueld_saved ≠ JsNum.nan) ∧
    parseFloatOr0 "-5" = JsNum.num (-5) ∧
    parseFloatOr0 "Infinity" = JsNum.inf := by
  have hnn : ∀ v : String, parseFloatOr0 v ≠ JsNum.nan := by
    intro v
    unfold parseFloatOr0
    split
    · simp
    · rename_i hfalse
      cases hx : jsParseFloat v with
      | nan => rw [hx] at hfalse; exact absurd rfl hfalse
      | inf => simp
      | negInf => simp
      | num q => simp
  refine ⟨hnn, ?_, ?_, by with_unfolding_all decide, by with_unfolding_all decide⟩
  · intro v h
    unfold parseFloatOr0
    rw [h]
    rfl
  · intro idS tsS cS fS
    exact ⟨rfl, rfl, hnn (trimQ cS), hnn (trimQ fS)⟩

theorem c6_amended_load_invariant_witness :
    parseFloatOr0 "abc" ≠ JsNum.nan ∧
    parseFloatOr0 "abc" = JsNum.num 0 ∧
    (savingsRecordOfRow "1" "x" "500" "10").carbon_saved ≠ JsNum.nan :=
  ⟨c6_amended_load_invariant.1 "abc",
   c6_amended_load_invariant.2.1 "abc" rfl,
   (c6_amended_load_invariant.2.2.1 "1" "x" "500" "10").2.2.1⟩

/-- C3 counterexample: the claim says a record timestamp with no timezone
offset is interpreted in the device's resolved timezone.  With server offset
UTC and device timezone Asia/Kolkata, the naive record timestamp
`2023-06-15T10:00:00` read in the device's timezone (instant 1686803400)
lies inside the queried range [1686796200, 1686807000], so the claim
predicts the record is returned; the code interprets it server-locally
(instant 1686823200, outside the range) and returns no records. -/
theorem c3_counterexample :
    getSavings tzdb 0 [⟨some 1, "A", "Asia/Kolkata"⟩]
      [⟨some 1, "2023-06-15T10:00:00", JsNum.num 500, JsNum.num 10⟩]
      (some "1") (some "2023-06-15T08:00") (some "2023-06-15T11:00") =
      Response.ok [] ⟨JsNum.num 0, JsNum.num 0, JsNum.num 0, JsNum.num 0, "2023-06"⟩ ∧
    momentTz tzdb "Asia/Kolkata" "2023-06-15T08:00" = some 1686796200 ∧
    momentTz tzdb "Asia/Kolkata" "2023-06-15T11:00" = some 1686807000 ∧
    momentTz tzdb "Asia/Kolkata" "2023-06-15T10:00:00" = some 1686803400 ∧
    (1686796200 : Int) ≤ 1686803400 ∧ (1686803400 : Int) ≤ 1686807000 ∧
    normalizeTs 0 "2023-06-15T10:00:00" = some 1686823200 :=
  ⟨by with_unfolding_all decide, by decide, by decide, by decide, by decide, by decide,
   by decide⟩

/-- C3 amended: a record's device_timestamp acquires temporal meaning only at
query time, but only startDateTime/endDateTime are interpreted in the
device's resolved timezone; a record timestamp carrying an offset uses that
offset, while one without an offset is interpreted at the server's local
offset (by the strict-ISO stage, or the lenient stage when strict parsing
fails), not the device's timezone. -/
theorem c3_amended_timezone_interpretation :
    (∀ serverOff : Int, ∀ s : String, ∀ p : DateTimeParts,
       parseISO s = some p → normalizeTs serverOff s = some (instantOf serverOff p)) ∧
    (∀ serverOff : Int, ∀ s : String, ∀ p : DateTimeParts,
       parseISO s = none → parseLenient s = some p →
       normalizeTs serverOff s = some (instantOf serverOff p)) ∧
    (∀ defOff : Int, ∀ p : DateTimeParts, ∀ o : Int,
       p.offset = some o → instantOf defOff p = civilSecs p - 60 * o) ∧
    (∀ defOff : Int, ∀ p : DateTimeParts,
       p.offset = none → instantOf defOff p = civilSecs p - 60 * defOff) ∧
    (∀ db : String → Option Int, ∀ tz sS : String, ∀ p : DateTimeParts,
       parseLenient sS = some p →
       momentTz db tz sS = some (instantOf ((db tz).getD 0) p)) := by
  refine ⟨?_, ?_, ?_, ?_, ?_⟩
  · intro serverOff s p hp
    unfold normalizeTs
    rw [hp]
  · intro serverOff s p hn hp
    unfold normalizeTs
    rw [hn, hp]
  · intro defOff p o ho
    unfold instantOf
    rw [ho]
    rfl
  · intro defOff p ho
    unfold instantOf
    rw [ho]
    rfl
  · intro db tz sS p hp
    unfold momentTz
    rw [hp]
    rfl

theorem c3_amended_timezone_interpretation_witness :
    normalizeTs 0 "2023-06-15T10:00:00" =
      some (instantOf 0 ⟨2023, 6, 15, 10, 0, 0, none⟩) ∧
    instantOf 0 ⟨2023, 6, 15, 10, 0, 0, none⟩ =
      civilSecs ⟨2023, 6, 15, 10, 0, 0, none⟩ - 60 * 0 ∧
    instantOf 0 ⟨2023, 6, 15, 10, 0, 0, some 330⟩ =
      civilSecs ⟨2023, 6, 15, 10, 0, 0, some 330⟩ - 60 * 330 ∧
    momentTz tzdb "Asia/Kolkata" "2023-06-15T10:00:00" =
      some (instantOf ((tzdb "Asia/Kolkata").getD 0) ⟨2023, 6, 15, 10, 0, 0, none⟩) :=
  ⟨c3_amended_timezone_interpretation.1 0 "2023-06-15T10:00:00"
     ⟨2023, 6, 15, 10, 0, 0, none⟩ (by decide),
   c3_amended_timezone_interpretation.2.2.2.1 0 ⟨2023, 6, 15, 10, 0, 0, none⟩ rfl,
   c3_amended_timezone_interpretation.2.2.1 0 ⟨2023, 6, 15, 10, 0, 0, some 330⟩ 330 rfl,
   c3_amended_timezone_interpretation.2.2.2.2 tzdb "Asia/Kolkata" "2023-06-15T10:00:00"
     ⟨2023, 6, 15, 10, 0, 0, none⟩ (by decide)⟩

/-- C2 counterexample: the claim says the monthly subset is exactly the
filtered records whose normalized timestamp falls in endDateTime's calendar
month in the *device's* timezone and is ≤ endDateTime.  The record at
`2023-06-01T01:00:00+05:30` (instant 1685561400) is returned, its device-tz
(Asia/Kolkata) month "2023-06" equals lastMonth, and it is ≤ end, so the
claim predicts monthlyFuel = 10; the code computes the record's month in the
server's local timezone (UTC here: "2023-05"), excludes it, and returns
monthlyCarbon = monthlyFuel = 0. -/
theorem c2_counterexample :
    getSavings tzdb 0 [⟨some 1, "A", "Asia/Kolkata"⟩]
      [⟨some 1, "2023-06-01T01:00:00+05:30", JsNum.num 500, JsNum.num 10⟩]
      (some "1") (some "2023-06-01T00:00") (some "2023-06-30T23:59") =
      Response.ok [annotate ⟨some 1, "2023-06-01T01:00:00+05:30", JsNum.num 500, JsNum.num 10⟩]
        ⟨JsNum.num (1/2), JsNum.num 10, JsNum.num 0, JsNum.num 0, "2023-06"⟩ ∧
    normalizeTs 0 "2023-06-01T01:00:00+05:30" = some 1685561400 ∧
    yyyyMM 330 1685561400 = "2023-06" ∧
    yyyyMM 0 1685561400 = "2023-05" ∧
    momentTz tzdb "Asia/Kolkata" "2023-06-30T23:59" = some 1688149740 ∧
    (1685561400 : Int) ≤ 1688149740 :=
  ⟨by with_unfolding_all decide, by decide, by decide, by decide, by decide, by decide⟩

/-- C2 amended: lastMonth is the device-timezone calendar month of
endDateTime formatted YYYY-MM, and monthlyCarbon/monthlyFuel are the
carbon/1000 and unconverted fuel sums over the monthly subset (0 when it is
empty); but the subset is selected by re-parsing each returned record's
timestamp as strict ISO (an ok response implies every returned record parsed;
otherwise the query crashes, see C1) and testing that its calendar month in
the *server's local* timezone equals lastMonth and that the start of that
month is ≤ endDateTime. -/
theorem c2_amended_monthly_rollup {db : String → Option Int} {serverOff : Int}
    {savingsData : List SavingsRecord} {dIdP : Option Int} {tz : String}
    {startI endI : Int} {r : List AnnotatedRecord} {ts : Totals}
    (h : computeResult db serverOff savingsData dIdP tz startI endI = Response.ok r ts) :
    ts.lastMonth = yyyyMM ((db tz).getD 0) endI ∧
    (∀ a ∈ r, ∃ p : DateTimeParts, parseISO a.record.device_timestamp = some p) ∧
    ts.monthlyCarbon =
      (if 0 < (r.filter fun a =>
            exceptPass (lastMonthTest serverOff (yyyyMM ((db tz).getD 0) endI) endI a)).length then
        jsDiv1000 (jsSum ((r.filter fun a =>
          exceptPass (lastMonthTest serverOff (yyyyMM ((db tz).getD 0) endI) endI a)).map
            fun i => jsOrZero i.record.carbon_saved))
      else JsNum.num 0) ∧
    ts.monthlyFuel =
      (if 0 < (r.filter fun a =>
            exceptPass (lastMonthTest serverOff (yyyyMM ((db tz).getD 0) endI) endI a)).length then
        jsSum ((r.filter fun a =>
          exceptPass (lastMonthTest serverOff (yyyyMM ((db tz).getD 0) endI) endI a)).map
            fun i => jsOrZero i.record.fueld_saved)
      else JsNum.num 0) ∧
    (∀ lm : String, ∀ e2 : Int, ∀ a : AnnotatedRecord, ∀ p : DateTimeParts,
       parseISO a.record.device_timestamp = some p →
       lastMonthTest serverOff lm e2 a =
         Except.ok (yyyyMM serverOff (instantOf serverOff p) == lm
           && decide (startOfMonthInstant serverOff (instantOf serverOff p) ≤ e2))) := by
  obtain ⟨hr, lmd, hflt, hts⟩ := computeResult_ok h
  obtain ⟨hall, hlmd⟩ :=
    filterE_ok_filter (lastMonthTest serverOff (yyyyMM ((db tz).getD 0) endI) endI) r lmd hflt
  subst hts
  subst hlmd
  refine ⟨rfl, ?_, rfl, rfl, ?_⟩
  · intro a ha
    obtain ⟨b, hb⟩ := hall a ha
    cases hp : parseISO a.record.device_timestamp with
    | none =>
      unfold lastMonthTest at hb
      rw [hp] at hb
      exact Except.noConfusion hb
    | some p => exact ⟨p, rfl⟩
  · intro lm e2 a p hp
    unfold lastMonthTest
    rw [hp]

theorem c2_amended_monthly_rollup_witness :
    (Totals.mk (JsNum.num (1/2)) (JsNum.num 10) (JsNum.num 0) (JsNum.num 0) "2023-06").lastMonth =
      yyyyMM ((tzdb "Asia/Kolkata").getD 0) 1688149740 :=
  (@c2_amended_monthly_rollup tzdb 0
    [⟨some 1, "2023-06-01T01:00:00+05:30", JsNum.num 500, JsNum.num 10⟩]
    (some 1) "Asia/Kolkata" 1685557800 1688149740
    [annotate ⟨some 1, "2023-06-01T01:00:00+05:30", JsNum.num 500, JsNum.num 10⟩]
    ⟨JsNum.num (1/2), JsNum.num 10, JsNum.num 0, JsNum.num 0, "2023-06"⟩
    (by with_unfolding_all decide)).1

/-- C4: a record of the queried device whose timestamp normalizes to `t` is
returned iff `start ≤ t ≤ end`, both endpoints included; in particular a
record timestamped exactly at start or exactly at end is returned. -/
theorem c4_inclusive_range {db : String → Option Int} {serverOff : Int}
    {savingsData : List SavingsRecord} {dIdP : Option Int} {tz : String}
    {startI endI : Int} {r : List AnnotatedRecord} {ts : Totals}
    (h : computeResult db serverOff savingsData dIdP tz startI endI = Response.ok r ts)
    (item : SavingsRecord) (t : Int)
    (hdev : idEq item.device_id dIdP = true)
    (ht : normalizeTs serverOff item.device_timestamp = some t) :
    (annotate item ∈ r ↔ item ∈ savingsData ∧ startI ≤ t ∧ t ≤ endI) ∧
    (item ∈ savingsData → t = startI → startI ≤ endI → annotate item ∈ r) ∧
    (item ∈ savingsData → t = endI → startI ≤ t → annotate item ∈ r) := by
  obtain ⟨hr, -⟩ := computeResult_ok h
  have hinj : Function.Injective annotate := by
    intro a b hab
    exact congrArg AnnotatedRecord.record hab
  have hpred : recordInRange serverOff dIdP startI endI item =
      (decide (startI ≤ t) && decide (t ≤ endI)) := by
    unfold recordInRange
    rw [hdev, ht]
    simp
  have hmain : annotate item ∈ r ↔ item ∈ savingsData ∧ startI ≤ t ∧ t ≤ endI := by
    rw [hr, List.mem_map_of_injective hinj, List.mem_filter, hpred]
    simp
  refine ⟨hmain, ?_, ?_⟩
  · intro hm h1 h2
    exact hmain.mpr ⟨hm, by omega, by omega⟩
  · intro hm h1 h2
    exact hmain.mpr ⟨hm, by omega, by omega⟩

theorem c4_inclusive_range_witness :
    annotate (SavingsRecord.mk (some 1) "2023-06-01T00:00:00+05:30" (JsNum.num 500) (JsNum.num 10)) ∈
      [annotate (SavingsRecord.mk (some 1) "2023-06-01T00:00:00+05:30" (JsNum.num 500) (JsNum.num 10))] :=
  (@c4_inclusive_range tzdb 0
      [⟨some 1, "2023-06-01T00:00:00+05:30", JsNum.num 500, JsNum.num 10⟩]
      (some 1) "Asia/Kolkata" 1685557800 1688149740
      [annotate ⟨some 1, "2023-06-01T00:00:00+05:30", JsNum.num 500, JsNum.num 10⟩]
      ⟨JsNum.num (1/2), JsNum.num 10, JsNum.num 0, JsNum.num 0, "2023-06"⟩
      (by with_unfolding_all decide)
      ⟨some 1, "2023-06-01T00:00:00+05:30", JsNum.num 500, JsNum.num 10⟩
      1685557800 (by decide) (by decide)).2.1
    (by with_unfolding_all decide) rfl (by decide)

/-- C5: in every ok response, totalCarbon is the sum of carbon_saved over
exactly the returned records divided by 1000, and totalFuel is the
unconverted sum of fueld_saved over the same records (the stored values are
never NaN after load, which the hypotheses record). -/
theorem c5_totals {db : String → Option Int} {serverOff : Int}
    {savingsData : List SavingsRecord} {dIdP : Option Int} {tz : String}
    {startI endI : Int} {r : List AnnotatedRecord} {ts : Totals}
    (h : computeResult db serverOff savingsData dIdP tz startI endI = Response.ok r ts)
    (hc : ∀ a ∈ r, a.record.carbon_saved ≠ JsNum.nan)
    (hf : ∀ a ∈ r, a.record.fueld_saved ≠ JsNum.nan) :
    ts.totalCarbon = jsDiv1000 (jsSum (r.map fun a => a.record.carbon_saved)) ∧
    ts.totalFuel = jsSum (r.map fun a => a.record.fueld_saved) ∧
    r = (savingsData.filter (recordInRange serverOff dIdP startI endI)).map annotate := by
  obtain ⟨hr, lmd, hflt, hts⟩ := computeResult_ok h
  subst hts
  refine ⟨?_, ?_, hr⟩
  · show jsDiv1000 (jsSum (r.map fun i => jsOrZero i.record.carbon_saved)) = _
    rw [List.map_congr_left fun a ha => jsOrZero_eq_self (hc a ha)]
  · show jsSum (r.map fun i => jsOrZero i.record.fueld_saved) = _
    rw [List.map_congr_left fun a ha => jsOrZero_eq_self (hf a ha)]

theorem c5_totals_witness :
    (Totals.mk (JsNum.num (1/2)) (JsNum.num 10) (JsNum.num (1/2)) (JsNum.num 10)
        "2023-06").totalCarbon =
      jsDiv1000 (jsSum
        (([annotate ⟨some 1, "2023-06-15T10:00:00+05:30", JsNum.num 500, JsNum.num 10⟩]).map
          fun a => a.record.carbon_saved)) ∧
    (Totals.mk (JsNum.num (1/2)) (JsNum.num 10) (JsNum.num (1/2)) (JsNum.num 10)
        "2023-06").totalFuel =
      jsSum
        (([annotate ⟨some 1, "2023-06-15T10:00:00+05:30", JsNum.num 500, JsNum.num 10⟩]).map
          fun a => a.record.fueld_saved) ∧
    [annotate ⟨some 1, "2023-06-15T10:00:00+05:30", JsNum.num 500, JsNum.num 10⟩] =
      (([⟨some 1, "2023-06-15T10:00:00+05:30", JsNum.num 500, JsNum.num 10⟩] :
          List SavingsRecord).filter (recordInRange 0 (some 1) 1685557800 1688149740)).map
        annotate :=
  @c5_totals tzdb 0
    [⟨some 1, "2023-06-15T10:00:00+05:30", JsNum.num 500, JsNum.num 10⟩]
    (some 1) "Asia/Kolkata" 1685557800 1688149740
    [annotate ⟨some 1, "2023-06-15T10:00:00+05:30", JsNum.num 500, JsNum.num 10⟩]
    ⟨JsNum.num (1/2), JsNum.num 10, JsNum.num (1/2), JsNum.num 10, "2023-06"⟩
    (by with_unfolding_all decide) (by decide) (by decide)

/-- The whole success path degenerates when the range is empty. -/
theorem computeResult_empty_of_lt (db : String → Option Int) (serverOff : Int)
    (savingsData : List SavingsRecord) (dIdP : Option Int) (tz : String)
    (startI endI : Int) (hlt : endI < startI) :
    computeResult db serverOff savingsData dIdP tz startI endI =
      Response.ok [] ⟨JsNum.num 0, JsNum.num 0, JsNum.num 0, JsNum.num 0,
        yyyyMM ((db tz).getD 0) endI⟩ := by
  have hfil : savingsData.filter (recordInRange serverOff dIdP startI endI) = [] := by
    rw [List.filter_eq_nil_iff]
    intro a _
    unfold recordInRange
    split
    · simp
    · cases hn : normalizeTs serverOff a.device_timestamp with
      | none => simp
      | some t =>
        simp only [Bool.and_eq_true, decide_eq_true_eq, not_and]
        intro h1 h2
        omega
  unfold computeResult
  rw [hfil]
  simp [filterE, jsSum, jsDiv1000]

/-- C10: with a valid device and valid datetimes whose start is strictly
after the end, the query succeeds: 200 with an empty record list, all four
totals 0, and lastMonth still computed from endDateTime in the device's
timezone. -/
theorem c10_inverted_range (db : String → Option Int) (serverOff : Int)
    (devices : List Device) (savingsData : List SavingsRecord)
    (q sS eS : String) (device : Device) (s e : Int)
    (hq : q ≠ "") (hs : sS ≠ "") (he : eS ≠ "")
    (hd : findDevice devices q = some device)
    (hps : momentTz db device.timezone sS = some s)
    (hpe : momentTz db device.timezone eS = some e)
    (hlt : e < s) :
    getSavings db serverOff devices savingsData (some q) (some sS) (some eS) =
      Response.ok [] ⟨JsNum.num 0, JsNum.num 0, JsNum.num 0, JsNum.num 0,
        yyyyMM ((db device.timezone).getD 0) e⟩ := by
  unfold getSavings
  rw [if_neg]
  · simp only [Option.getD_some]
    rw [hd]
    simp only [hps, hpe]
    exact computeResult_empty_of_lt db serverOff savingsData (jsParseInt q)
      device.timezone s e hlt
  · simp [paramFalsy, hq, hs, he]

theorem c10_inverted_range_witness :
    getSavings tzdb 0 [⟨some 1, "A", "Asia/Kolkata"⟩]
      [⟨some 1, "2023-06-15T10:00:00+05:30", JsNum.num 500, JsNum.num 10⟩]
      (some "1") (some "2023-06-30T00:00") (some "2023-06-01T00:00") =
      Response.ok [] ⟨JsNum.num 0, JsNum.num 0, JsNum.num 0, JsNum.num 0, "2023-06"⟩ :=
  c10_inverted_range tzdb 0 [⟨some 1, "A", "Asia/Kolkata"⟩]
    [⟨some 1, "2023-06-15T10:00:00+05:30", JsNum.num 500, JsNum.num 10⟩]
    "1" "2023-06-30T00:00" "2023-06-01T00:00" ⟨some 1, "A", "Asia/Kolkata"⟩
    1688063400 1685557800
    (by decide) (by decide) (by decide) (by decide) (by decide) (by decide) (by decide)
